import Mathlib

/-!
Shallow embedding of `hybrid_router_demo.py` (the LeniLani hybrid router demo)
and verification of its specification.

Python floats are modelled as rationals (`ℚ`), Python strings as `String`,
Python dicts of heterogeneous result fields as structures with `Option` fields
(a `none` field models an absent dict key).  The two side-effecting calls
(`ollama.chat` / the cloud client call, and the `time.time()` readings) enter
the embedded dispatch functions as explicit parameters: an `Except` value for
the backend outcome (exception text on the left) and two clock readings.
-/

namespace HybridRouter

/-- A pricing record, `{"input": ..., "output": ...}` (USD per 1M tokens). -/
structure Pricing where
  input : ℚ
  output : ℚ
deriving DecidableEq

/-- One entry of `CLOUD_MODELS` (lines 16-45); the description / best-for
display strings play no role in any claim and are omitted. -/
structure CloudModelConfig where
  id : String
  provider : String
  pricing : Pricing
deriving DecidableEq

/-- The `CLOUD_MODELS` table (lines 16-45), in insertion order. -/
def CLOUD_MODELS : List (String × CloudModelConfig) :=
  [("Claude Sonnet 4", ⟨"claude-sonnet-4-20250514", "anthropic", ⟨3.00, 15.00⟩⟩),
   ("Claude Opus 4", ⟨"claude-opus-4-20250514", "anthropic", ⟨15.00, 75.00⟩⟩),
   ("GPT-4o", ⟨"gpt-4o", "openai", ⟨2.50, 10.00⟩⟩),
   ("GPT-4o Mini", ⟨"gpt-4o-mini", "openai", ⟨0.15, 0.60⟩⟩)]

/-- `get_pricing` (lines 108-112): pricing for a cloud model key, `{0, 0}`
for every other key ("Local models are free"). -/
def get_pricing (model_key : String) : Pricing :=
  match CLOUD_MODELS.lookup model_key with
  | some cfg => cfg.pricing
  | none => ⟨0, 0⟩

/-- A Python exception as it escapes an expression that has no handler. -/
inductive PyExn where
  | nameError (name : String)
deriving DecidableEq

/-- The value bound to the module-level name `PRICING`.  No statement in
`hybrid_router_demo.py` assigns to `PRICING` (the module defines the function
`get_pricing`, lines 108-112, but no dict named `PRICING`), so the name is
unbound and reading it raises `NameError`. -/
def PRICING_global : Option (List (String × Pricing)) := none

/-- `calculate_cost` (lines 194-199).  Its first step reads the global name
`PRICING` (line 196, `PRICING.get(model, ...)`); since that name is unbound
in the module, every call raises `NameError` before any arithmetic runs. -/
def calculate_cost (input_tokens output_tokens : ℕ) (model : String) :
    Except PyExn ℚ :=
  match PRICING_global with
  | none => .error (.nameError "PRICING")
  | some tbl =>
      let pricing := (tbl.lookup model).getD ⟨0, 0⟩
      .ok ((input_tokens * pricing.input / 1000000) +
           (output_tokens * pricing.output / 1000000))

/-- `estimate_tokens` (lines 190-192): `len(text) // 4`. -/
def estimate_tokens (text : String) : ℕ :=
  text.length / 4

/-- Does `needle` occur at the head of `haystack`? -/
def startsWithChars : List Char → List Char → Bool
  | [], _ => true
  | _ :: _, [] => false
  | c :: cs, d :: ds => c == d && startsWithChars cs ds

/-- Does `needle` occur contiguously anywhere in `haystack`? -/
def containsChars (needle : List Char) : List Char → Bool
  | [] => startsWithChars needle []
  | d :: ds => startsWithChars needle (d :: ds) || containsChars needle ds

/-- The Python membership test `needle in haystack` on strings: `needle` is a
contiguous substring (infix of the character sequence) of `haystack`. -/
def pyIn (needle haystack : String) : Bool :=
  containsChars needle.data haystack.data

/-- Python `s.lower()` (ASCII case folding, which covers every query and
keyword the program compares). -/
def pyLower (s : String) : String :=
  ⟨s.data.map Char.toLower⟩

/-- Split a character list at every character satisfying `p`, keeping empty
pieces (the behaviour of Python `str.split(sep)` at the character level). -/
def splitChars (p : Char → Bool) : List Char → List (List Char)
  | [] => [[]]
  | c :: cs =>
    match splitChars p cs with
    | [] => [[]]
    | w :: ws => if p c then [] :: w :: ws else (c :: w) :: ws

/-- Python `str.split()` with no separator: the maximal runs of
non-whitespace characters (empty pieces are discarded). -/
def pySplitWhitespace (s : String) : List String :=
  ((splitChars Char.isWhitespace s.data).filter (fun w => w ≠ [])).map
    (fun w => ⟨w⟩)

/-- Python `s.split(sep)` for a one-character separator. -/
def pySplitOn (s : String) (sep : Char) : List String :=
  (splitChars (fun d => d = sep) s.data).map (fun w => ⟨w⟩)

/-- Python `s.strip()`: discard leading and trailing whitespace. -/
def pyStrip (s : String) : String :=
  ⟨((s.data.dropWhile Char.isWhitespace).reverse.dropWhile
      Char.isWhitespace).reverse⟩

/-- Python `s.count(c)` for a single character. -/
def pyCountChar (s : String) (c : Char) : ℕ :=
  (s.data.filter (fun d => d = c)).length

/-- One entry of the `factors` list built by `analyze_query_complexity`.
The Python code stores formatted display strings; each constructor stands
for one of the f-string templates, carrying its interpolated data. -/
inductive Factor where
  | longQuery (words : ℕ)
  | mediumLength (words : ℕ)
  | complexKeyword (keyword : String)
  | multipleQuestions (n : ℕ)
  | twoQuestions
  | requestsExamples
  | simpleQuestion
deriving DecidableEq

/-- The result dict of `analyze_query_complexity` (lines 183-188). -/
structure ComplexityAnalysis where
  score : ℚ
  factors : List Factor
  route : String
  threshold : ℚ
deriving DecidableEq

/-- The `complex_keywords` dict (lines 138-152), in insertion order. -/
def complex_keywords : List (String × ℚ) :=
  [("analyze deeply", 0.3),
   ("comprehensive analysis", 0.3),
   ("compare and contrast", 0.25),
   ("detailed explanation", 0.2),
   ("critically evaluate", 0.25),
   ("strategic planning", 0.2),
   ("analyze", 0.15),
   ("compare", 0.15),
   ("explain", 0.1),
   ("evaluate", 0.15),
   ("multiple", 0.1),
   ("complex", 0.15),
   ("various", 0.1)]

/-- Length analysis (lines 128-135): the first block of
`analyze_query_complexity`, producing the initial `(score, factors)` state. -/
def lengthStep (query : String) : ℚ × List Factor :=
  let word_count := (pySplitWhitespace query).length
  if word_count > 100 then (0.3, [Factor.longQuery word_count])
  else if word_count > 50 then (0.15, [Factor.mediumLength word_count])
  else (0, [])

/-- The body of the keyword loop (lines 155-158): one iteration over a
`(keyword, weight)` pair. -/
def keywordFold (query_lower : String) (acc : ℚ × List Factor)
    (kw : String × ℚ) : ℚ × List Factor :=
  if pyIn kw.1 query_lower then
    (acc.1 + kw.2, acc.2 ++ [Factor.complexKeyword kw.1])
  else acc

/-- Complexity-keyword loop (lines 154-158): each keyword whose text occurs
in the lowercased query adds its weight and appends a factor. -/
def keywordStep (query_lower : String) (acc : ℚ × List Factor) :
    ℚ × List Factor :=
  complex_keywords.foldl (keywordFold query_lower) acc

/-- Question-mark analysis (lines 160-167). -/
def questionStep (query : String) (acc : ℚ × List Factor) :
    ℚ × List Factor :=
  let question_marks := pyCountChar query '?'
  if question_marks > 2 then
    (acc.1 + 0.2, acc.2 ++ [Factor.multipleQuestions question_marks])
  else if question_marks > 1 then
    (acc.1 + 0.1, acc.2 ++ [Factor.twoQuestions])
  else acc

/-- Request-for-examples check (lines 169-172). -/
def examplesStep (query_lower : String) (acc : ℚ × List Factor) :
    ℚ × List Factor :=
  if ["step by step", "examples", "multiple examples"].any
       (fun w => pyIn w query_lower) then
    (acc.1 + 0.15, acc.2 ++ [Factor.requestsExamples])
  else acc

/-- Simple-indicator check (lines 174-177): reduces the score. -/
def simpleStep (query_lower : String) (acc : ℚ × List Factor) :
    ℚ × List Factor :=
  if ["what is", "who is", "when did", "where is"].any
       (fun w => pyIn w query_lower) then
    (acc.1 - 0.1, acc.2 ++ [Factor.simpleQuestion])
  else acc

/-- The accumulated `(score, factors)` state of `analyze_query_complexity`
just before line 179, i.e. the unclamped score and the factor list, obtained
by running the five scoring blocks in program order. -/
def scoreAndFactors (query : String) : ℚ × List Factor :=
  simpleStep (pyLower query)
    (examplesStep (pyLower query)
      (questionStep query
        (keywordStep (pyLower query)
          (lengthStep query))))

/-- The routing threshold (line 180). -/
def threshold : ℚ := 0.6

/-- `analyze_query_complexity` (lines 120-188).  The route is decided from
the raw (unclamped) score (line 181); the returned score is clamped to
`[0, 1]` (line 184). -/
def analyze_query_complexity (query : String) : ComplexityAnalysis :=
  { score := min (max (scoreAndFactors query).1 0) 1
    factors := (scoreAndFactors query).2
    route := if (scoreAndFactors query).1 ≥ threshold then "cloud" else "local"
    threshold := threshold }

/-- The result dict of `local_inference` / `cloud_inference`.  A `none`
field models a key that the returned Python dict does not contain. -/
structure InferenceResult where
  success : Bool
  response : Option String := none
  error : Option String := none
  model : String
  latency : Option ℚ := none
  tokens_per_sec : Option ℚ := none
  cost : Option ℚ := none
  input_tokens : Option ℕ := none
  output_tokens : Option ℕ := none
deriving DecidableEq

/-- `local_inference` (lines 201-229).  `chat` is the outcome of the
`ollama.chat` call (response text, or the text of the raised exception);
`start_time` / `end_time` are the two `time.time()` readings.  When the
elapsed time is zero, the division on line 219 raises `ZeroDivisionError`
inside the `try` block, and the `except` on line 224 turns it into a
failure result exactly as it would any backend exception. -/
def local_inference (query model : String) (chat : Except String String)
    (start_time end_time : ℚ) : InferenceResult :=
  match chat with
  | .error e =>
      { success := false, error := some e, model := model }
  | .ok response_text =>
      if end_time - start_time = 0 then
        { success := false, error := some "float division by zero",
          model := model }
      else
        { success := true
          response := some response_text
          model := model
          latency := some (end_time - start_time)
          tokens_per_sec :=
            some ((estimate_tokens response_text : ℚ) /
                  (end_time - start_time))
          cost := some 0
          input_tokens := some (estimate_tokens query)
          output_tokens := some (estimate_tokens response_text) }

/-- `cloud_inference` (lines 231-285).  `api` is the outcome of the provider
call: on success the response text and the provider-reported input/output
token counts (the anthropic and openai branches differ only in how these
three values are extracted from the provider response object), on failure
the text of the raised exception. -/
def cloud_inference (query cloud_model_key : String)
    (api : Except String (String × ℕ × ℕ))
    (start_time end_time : ℚ) : InferenceResult :=
  match CLOUD_MODELS.lookup cloud_model_key with
  | none =>
      { success := false
        error := some ("Unknown cloud model: " ++ cloud_model_key)
        model := cloud_model_key }
  | some model_config =>
      let pricing := model_config.pricing
      match api with
      | .error e =>
          { success := false, error := some e, model := cloud_model_key }
      | .ok (response_text, input_tokens, output_tokens) =>
          { success := true
            response := some response_text
            model := cloud_model_key ++ " (" ++ model_config.id ++ ")"
            latency := some (end_time - start_time)
            cost := some ((input_tokens * pricing.input / 1000000) +
                          (output_tokens * pricing.output / 1000000))
            input_tokens := some input_tokens
            output_tokens := some output_tokens }

/-- One entry of `st.session_state.queries` (lines 551-559). -/
structure LedgerEntry where
  query : String
  route : String
  model : String
  latency : ℚ
  cost : ℚ
  timestamp : String
  complexity_score : ℚ
deriving DecidableEq

/-- The result-handling block after a dispatch (lines 528-562): a successful
result is appended to `st.session_state.queries`; a failed result leaves the
history untouched and only renders the `st.error` banner.  `queries` is the
session history before the dispatch and `now` the `datetime.now()` reading;
the returned pair is the history afterwards and the banner text, if any. -/
def process_result (queries : List LedgerEntry) (query route : String)
    (analysis : ComplexityAnalysis) (result : InferenceResult)
    (now : String) : List LedgerEntry × Option String :=
  if result.success then
    (queries ++
      [{ query := query
         route := route
         model := result.model
         latency := result.latency.getD 0
         cost := result.cost.getD 0
         timestamp := now
         complexity_score := analysis.score }],
     none)
  else
    (queries, some ("Error: " ++ result.error.getD "Unknown error"))

/-- The sidebar savings block (lines 420-431): total cost is the sum of the
recorded per-query costs; when at least one query was recorded, the savings
metric shows `total_queries * 0.005 - total_cost` and the percentage
`savings / estimated * 100` guarded by `estimated > 0` (else `0`).  With an
empty history no savings metric is rendered (`none`). -/
def session_savings (queries : List LedgerEntry) : Option (ℚ × ℚ) :=
  let total_cost := (queries.map LedgerEntry.cost).sum
  let total_queries := queries.length
  if total_queries > 0 then
    let avg_cloud_cost : ℚ := 0.005
    let estimated_all_cloud := total_queries * avg_cloud_cost
    let savings := estimated_all_cloud - total_cost
    let savings_pct :=
      if estimated_all_cloud > 0 then savings / estimated_all_cloud * 100
      else 0
    some (savings, savings_pct)
  else none

/-- Python `line.split()[0]` as used on line 100; the call site guards
`line.strip()` nonempty, so the word list is nonempty there. -/
def firstWord (line : String) : String :=
  (pySplitWhitespace line).headD ""

/-- `get_available_local_models` (lines 86-105).  `run` is the outcome of the
`subprocess.run(["ollama", "list"], ...)` call: the text of the raised
exception, or the pair of return code and stdout. -/
def get_available_local_models (run : Except String (Int × String)) :
    List String :=
  match run with
  | .error e => ["Error: " ++ e]
  | .ok (returncode, stdout) =>
      if returncode = 0 then
        let lines := (pySplitOn (pyStrip stdout) (Char.ofNat 10)).drop 1
        let models :=
          (lines.filter (fun line => pyStrip line ≠ "")).map firstWord
        if models = [] then ["No models found"] else models
      else ["Error fetching models"]

/-- A concrete ledger entry, used to instantiate theorems with hypotheses. -/
def sampleEntry : LedgerEntry :=
  { query := "What is HIPAA?"
    route := "local"
    model := "llama3:8b"
    latency := 1.2
    cost := 0.001
    timestamp := "2025-10-12T00:00:00"
    complexity_score := 0 }

/-!  Lemmas about the substring test. -/

theorem startsWithChars_iff (n h : List Char) :
    startsWithChars n h = true ↔ n <+: h := by
  induction n generalizing h with
  | nil => simp [startsWithChars, List.nil_prefix]
  | cons c cs ih =>
      cases h with
      | nil => simp [startsWithChars, List.prefix_nil]
      | cons d ds =>
          simp [startsWithChars, List.cons_prefix_cons, ih,
            Bool.and_eq_true, beq_iff_eq]

theorem containsChars_iff (n h : List Char) :
    containsChars n h = true ↔ n <:+: h := by
  induction h with
  | nil =>
      cases n with
      | nil => simp [containsChars, startsWithChars, List.infix_nil]
      | cons c cs => simp [containsChars, startsWithChars, List.infix_nil]
  | cons d ds ih =>
      simp [containsChars, Bool.or_eq_true, startsWithChars_iff, ih,
        List.infix_cons_iff]

theorem pyIn_iff (n h : String) : pyIn n h = true ↔ n.data <:+: h.data := by
  simp [pyIn, containsChars_iff]

/-!  Lemmas tracking the factor list through the scoring pipeline. -/

theorem keywordFoldl_factors_sublist (s : String) (l : List (String × ℚ))
    (acc : ℚ × List Factor) :
    acc.2.Sublist (l.foldl (keywordFold s) acc).2 := by
  induction l generalizing acc with
  | nil => simp
  | cons kw tl ih =>
      rw [List.foldl_cons]
      refine List.Sublist.trans ?_ (ih (keywordFold s acc kw))
      by_cases h : pyIn kw.1 s <;>
        simp [keywordFold, h, List.sublist_append_left]

theorem keywordFoldl_factors_mem (s : String) (l : List (String × ℚ))
    (acc : ℚ × List Factor) (kw : String) (w : ℚ)
    (hmem : (kw, w) ∈ l) (hin : pyIn kw s = true) :
    Factor.complexKeyword kw ∈ (l.foldl (keywordFold s) acc).2 := by
  induction l generalizing acc with
  | nil => cases hmem
  | cons p tl ih =>
      rw [List.foldl_cons]
      rcases List.mem_cons.mp hmem with h | h
      · subst h
        refine List.Sublist.mem ?_ (keywordFoldl_factors_sublist s tl _)
        simp [keywordFold, hin]
      · exact ih _ h

theorem questionStep_factors_sublist (q : String) (acc : ℚ × List Factor) :
    acc.2.Sublist (questionStep q acc).2 := by
  simp only [questionStep]
  split
  · simp [List.sublist_append_left]
  · split
    · simp [List.sublist_append_left]
    · exact List.Sublist.refl _

theorem examplesStep_factors_sublist (s : String) (acc : ℚ × List Factor) :
    acc.2.Sublist (examplesStep s acc).2 := by
  simp only [examplesStep]
  split
  · simp [List.sublist_append_left]
  · exact List.Sublist.refl _

theorem simpleStep_factors_sublist (s : String) (acc : ℚ × List Factor) :
    acc.2.Sublist (simpleStep s acc).2 := by
  simp only [simpleStep]
  split
  · simp [List.sublist_append_left]
  · exact List.Sublist.refl _

/-- Claim C2: for every query string (including the empty string and
arbitrarily long ones), the `score` field of the analysis returned by
`analyze_query_complexity` lies in the closed interval `[0, 1]`. -/
theorem score_in_unit_interval (query : String) :
    0 ≤ (analyze_query_complexity query).score ∧
      (analyze_query_complexity query).score ≤ 1 := by
  constructor
  · exact le_min (le_max_right _ _) zero_le_one
  · exact min_le_right _ _

/-- Claim C3: for every query, the returned route is "cloud" exactly when the
returned (clamped) score reaches the fixed threshold 0.60, and "local"
otherwise.  (The code compares the unclamped score with the threshold, but
since the threshold lies in `(0, 1]` this agrees with comparing the clamped
score.) -/
theorem route_iff_threshold (query : String) :
    (analyze_query_complexity query).route =
      if (0.6 : ℚ) ≤ (analyze_query_complexity query).score then "cloud"
      else "local" := by
  have hth : threshold = (0.6 : ℚ) := rfl
  show (if (scoreAndFactors query).1 ≥ threshold then "cloud" else "local") =
    if (0.6 : ℚ) ≤ min (max (scoreAndFactors query).1 0) 1 then "cloud"
    else "local"
  rcases le_or_lt (0.6 : ℚ) (scoreAndFactors query).1 with h | h
  · rw [if_pos (by rw [ge_iff_le, hth]; exact h),
      if_pos (le_min (h.trans (le_max_left _ 0)) (by norm_num))]
  · rw [if_neg (by rw [ge_iff_le, hth]; exact not_le.mpr h),
      if_neg (not_le.mpr
        (lt_of_le_of_lt (min_le_left _ _) (max_lt h (by norm_num))))]

/-- Claim C4 counterexample: the query "comprehensive analysis" contains the
phrase "comprehensive analysis", yet the scorer does not add the standalone
"analyze" keyword for it, because "analysis" does not contain the substring
"analyze". -/
theorem comprehensive_analysis_no_analyze_factor :
    pyIn "comprehensive analysis"
        (pyLower "comprehensive analysis") = true ∧
      Factor.complexKeyword "analyze" ∉
        (analyze_query_complexity "comprehensive analysis").factors :=
  ⟨by decide, by decide⟩

/-- Claim C4 (amended): overlapping keyword matches are counted
independently with no deduplication: a query containing "analyze deeply"
also triggers the standalone "analyze" keyword, so both factors (and hence
both weights) are added.  A query containing only "comprehensive analysis"
does not trigger "analyze", since "analysis" is not a superstring of
"analyze". -/
theorem overlapping_keywords_both_counted (query : String)
    (h : pyIn "analyze deeply" (pyLower query) = true) :
    Factor.complexKeyword "analyze deeply" ∈
        (analyze_query_complexity query).factors ∧
      Factor.complexKeyword "analyze" ∈
        (analyze_query_complexity query).factors := by
  have h2 : pyIn "analyze" (pyLower query) = true := by
    rw [pyIn_iff] at h ⊢
    exact List.IsInfix.trans (by decide) h
  have hsub :
      (keywordStep (pyLower query) (lengthStep query)).2.Sublist
        (scoreAndFactors query).2 := by
    unfold scoreAndFactors
    exact ((questionStep_factors_sublist query _).trans
      (examplesStep_factors_sublist (pyLower query) _)).trans
      (simpleStep_factors_sublist (pyLower query) _)
  have hshow : (analyze_query_complexity query).factors =
      (scoreAndFactors query).2 := rfl
  rw [hshow]
  constructor
  · refine List.Sublist.mem ?_ hsub
    exact keywordFoldl_factors_mem (pyLower query) complex_keywords _
      "analyze deeply" 0.3 (by simp [complex_keywords]) h
  · refine List.Sublist.mem ?_ hsub
    exact keywordFoldl_factors_mem (pyLower query) complex_keywords _
      "analyze" 0.15 (by simp [complex_keywords]) h2

/-- Claim C4 witness: the amended theorem applied to the concrete query
"Please analyze deeply". -/
theorem overlapping_keywords_witness :
    Factor.complexKeyword "analyze deeply" ∈
        (analyze_query_complexity "Please analyze deeply").factors ∧
      Factor.complexKeyword "analyze" ∈
        (analyze_query_complexity "Please analyze deeply").factors :=
  overlapping_keywords_both_counted "Please analyze deeply" (by decide)

/-- Claim C5 counterexample: with a successful backend response and elapsed
time exactly 0, `local_inference` does not deliver a result with an absent
tokens-per-second marker; the division on line 219 raises, the handler
swallows it, and the whole dispatch reports failure. -/
theorem zero_elapsed_not_reported_absent :
    ¬ ((local_inference "What time is it" "llama3"
          (.ok "It is noon in Honolulu right now") 5 5).success = true ∧
       (local_inference "What time is it" "llama3"
          (.ok "It is noon in Honolulu right now") 5 5).tokens_per_sec
          = none) := by
  intro hcl
  have h5 : ((5 : ℚ) - 5) = 0 := sub_self 5
  have h1 := hcl.1
  simp [local_inference, h5] at h1

/-- Claim C5 (amended): tokens-per-second is computed by an unguarded inline
division; when the elapsed time is exactly 0 the division raises
`ZeroDivisionError`, which the surrounding handler catches, so
`local_inference` returns `success = false` with the error text instead of
a success result with an absent rate.  It never raises to its caller. -/
theorem zero_elapsed_dispatch_fails (query model response_text : String)
    (t : ℚ) :
    local_inference query model (.ok response_text) t t =
      { success := false, error := some "float division by zero",
        model := model } := by
  simp [local_inference, sub_self]

/-- Claim C1 (code bug): `calculate_cost` reads the unbound module global
`PRICING`, so even `calculate_cost(0, 0, "Claude Sonnet 4")` raises
`NameError` instead of returning 0. -/
theorem calculate_cost_raises_name_error :
    calculate_cost 0 0 "Claude Sonnet 4" =
      .error (.nameError "PRICING") := rfl

/-- Claim C6: a dispatch never raises to its caller; a failure result
carries an error message and no partial result fields, a success result
carries the response text and no error field, so exactly one of
response / error is present.  (Cloud results never carry a
tokens-per-second field, even on success.) -/
theorem dispatch_result_shape :
    (∀ (query model : String) (chat : Except String String) (s e : ℚ),
      ((local_inference query model chat s e).response.isSome
          = (local_inference query model chat s e).success) ∧
      ((local_inference query model chat s e).error.isSome
          = !(local_inference query model chat s e).success) ∧
      ((local_inference query model chat s e).latency.isSome
          = (local_inference query model chat s e).success) ∧
      ((local_inference query model chat s e).tokens_per_sec.isSome
          = (local_inference query model chat s e).success) ∧
      ((local_inference query model chat s e).cost.isSome
          = (local_inference query model chat s e).success) ∧
      ((local_inference query model chat s e).input_tokens.isSome
          = (local_inference query model chat s e).success) ∧
      ((local_inference query model chat s e).output_tokens.isSome
          = (local_inference query model chat s e).success)) ∧
    (∀ (query key : String) (api : Except String (String × ℕ × ℕ))
        (s e : ℚ),
      ((cloud_inference query key api s e).response.isSome
          = (cloud_inference query key api s e).success) ∧
      ((cloud_inference query key api s e).error.isSome
          = !(cloud_inference query key api s e).success) ∧
      ((cloud_inference query key api s e).latency.isSome
          = (cloud_inference query key api s e).success) ∧
      ((cloud_inference query key api s e).tokens_per_sec = none) ∧
      ((cloud_inference query key api s e).cost.isSome
          = (cloud_inference query key api s e).success) ∧
      ((cloud_inference query key api s e).input_tokens.isSome
          = (cloud_inference query key api s e).success) ∧
      ((cloud_inference query key api s e).output_tokens.isSome
          = (cloud_inference query key api s e).success)) := by
  constructor
  · intro query model chat s e
    cases chat with
    | error err => simp [local_inference]
    | ok t =>
        by_cases h : e - s = 0 <;> simp [local_inference, h]
  · intro query key api s e
    rcases hl : CLOUD_MODELS.lookup key with _ | cfg <;>
      rcases api with err | ⟨t, it, ot⟩ <;>
      simp [cloud_inference, hl]

/-- Claim C7: a failed dispatch appends nothing to the session history and
surfaces a non-empty error banner to the invoker. -/
theorem failed_dispatch_not_recorded (queries : List LedgerEntry)
    (query route : String) (analysis : ComplexityAnalysis)
    (result : InferenceResult) (now : String)
    (h : result.success = false) :
    (process_result queries query route analysis result now).1 = queries ∧
    ∃ msg,
      (process_result queries query route analysis result now).2 = some msg
        ∧ msg ≠ "" := by
  refine ⟨by simp [process_result, h],
    "Error: " ++ result.error.getD "Unknown error",
    by simp [process_result, h], ?_⟩
  intro hx
  have hlen := congrArg String.length hx
  rw [String.length_append] at hlen
  have h7 : ("Error: " : String).length = 7 := rfl
  have h0 : ("" : String).length = 0 := rfl
  rw [h7, h0] at hlen
  omega

/-- Claim C7 witness: the theorem applied to a concrete failed result and an
empty history. -/
theorem failed_dispatch_witness :
    (process_result [] "What is HIPAA?" "local"
        (analyze_query_complexity "What is HIPAA?")
        { success := false, error := some "connection refused",
          model := "llama3:8b" } "2025-10-12T00:00:00").1 = [] ∧
    ∃ msg,
      (process_result [] "What is HIPAA?" "local"
          (analyze_query_complexity "What is HIPAA?")
          { success := false, error := some "connection refused",
            model := "llama3:8b" } "2025-10-12T00:00:00").2 = some msg
        ∧ msg ≠ "" :=
  failed_dispatch_not_recorded [] "What is HIPAA?" "local"
    (analyze_query_complexity "What is HIPAA?")
    { success := false, error := some "connection refused",
      model := "llama3:8b" } "2025-10-12T00:00:00" rfl

/-- Claim C8: with at least one recorded query, the sidebar reports savings
`totalCount * 0.005 - totalCost` and the percentage
`savings / (totalCount * 0.005) * 100` (the `baseline > 0` guard is then
always satisfied, so its `else 0` branch never fires). -/
theorem savings_formula (queries : List LedgerEntry)
    (h : 0 < queries.length) :
    session_savings queries =
      some ((queries.length : ℚ) * 0.005 -
              (queries.map LedgerEntry.cost).sum,
            ((queries.length : ℚ) * 0.005 -
               (queries.map LedgerEntry.cost).sum) /
              ((queries.length : ℚ) * 0.005) * 100) := by
  have hpos : (0 : ℚ) < (queries.length : ℚ) * 0.005 := by
    have hc : (0 : ℚ) < (queries.length : ℚ) := by exact_mod_cast h
    have : (0 : ℚ) < (0.005 : ℚ) := by norm_num
    exact mul_pos hc this
  simp only [session_savings]
  rw [if_pos h, if_pos hpos]

/-- Claim C8 witness: the theorem applied to a one-entry ledger. -/
theorem savings_formula_witness :
    session_savings [sampleEntry] =
      some (([sampleEntry].length : ℚ) * 0.005 -
              ([sampleEntry].map LedgerEntry.cost).sum,
            (([sampleEntry].length : ℚ) * 0.005 -
               ([sampleEntry].map LedgerEntry.cost).sum) /
              (([sampleEntry].length : ℚ) * 0.005) * 100) :=
  savings_formula [sampleEntry] (by simp)

/-- Claim C9: every model key outside the `CLOUD_MODELS` table (local model
names, unknown or misspelled keys) is priced `{input: 0, output: 0}` by
`get_pricing` rather than rejected. -/
theorem unknown_key_priced_free (model_key : String)
    (h : model_key ∉ CLOUD_MODELS.map Prod.fst) :
    get_pricing model_key = ⟨0, 0⟩ := by
  simp only [CLOUD_MODELS, List.map, List.mem_cons, List.not_mem_nil,
    or_false] at h
  push_neg at h
  obtain ⟨h1, h2, h3, h4⟩ := h
  have e1 : (model_key == "Claude Sonnet 4") = false :=
    beq_eq_false_iff_ne.mpr h1
  have e2 : (model_key == "Claude Opus 4") = false :=
    beq_eq_false_iff_ne.mpr h2
  have e3 : (model_key == "GPT-4o") = false := beq_eq_false_iff_ne.mpr h3
  have e4 : (model_key == "GPT-4o Mini") = false :=
    beq_eq_false_iff_ne.mpr h4
  simp [get_pricing, CLOUD_MODELS, List.lookup, e1, e2, e3, e4]

/-- Claim C9 witness: the theorem applied to a local model name. -/
theorem unknown_key_witness : get_pricing "deepseek-r1:7b" = ⟨0, 0⟩ :=
  unknown_key_priced_free "deepseek-r1:7b" (by decide)

/-- Claim C10: `get_available_local_models` never raises and never returns
an empty list: an exception yields a one-element list with the error text, a
nonzero return code yields the error placeholder, a successful run with no
parsed models yields the no-models placeholder. -/
theorem local_models_fallbacks :
    (∀ run, get_available_local_models run ≠ []) ∧
    (∀ e, get_available_local_models (.error e) = ["Error: " ++ e]) ∧
    (∀ (rc : Int) (out : String), rc ≠ 0 →
        get_available_local_models (.ok (rc, out)) =
          ["Error fetching models"]) ∧
    (∀ out : String,
        ((pySplitOn (pyStrip out) (Char.ofNat 10)).drop 1).filter
            (fun line => pyStrip line ≠ "") = [] →
        get_available_local_models (.ok (0, out)) = ["No models found"]) := by
  refine ⟨?_, ?_, ?_, ?_⟩
  · intro run
    rcases run with e | ⟨rc, out⟩
    · simp [get_available_local_models]
    · simp only [get_available_local_models]
      split
      · split
        · simp
        · simp_all
      · simp
  · intro e
    rfl
  · intro rc out h
    simp [get_available_local_models, h]
  · intro out h
    dsimp only [get_available_local_models]
    rw [h]
    rfl

/-- Claim C10 witness: the theorem applied to a failing run and to a
successful run whose output lists no models. -/
theorem local_models_fallbacks_witness :
    get_available_local_models (.ok (1, "")) = ["Error fetching models"] ∧
    get_available_local_models (.ok (0, "NAME ID SIZE MODIFIED")) =
      ["No models found"] :=
  ⟨local_models_fallbacks.2.2.1 1 "" (by decide),
   local_models_fallbacks.2.2.2 "NAME ID SIZE MODIFIED" (by decide)⟩

end HybridRouter
